import Mathlib

/-!
Verification of the copilot-terminal-carousel backend.

This file gives a shallow embedding, in Lean 4, of the backend's core data
model and operations (session manager, PTY state, persistence stores, wire
protocol validation and dispatch), translated from the Python sources under
`backend/app/`, and proves properties of the natural-language specification
against that embedding.

Modelling conventions:
- Python dicts become association lists over `String` keys; `dict_get` is
  `dict.get` (first match) and `dict_set` is item assignment (replace the
  first binding, else append).
- The wall clock (`utc_now_iso`) is impure; every operation that stamps a
  timestamp takes the current time as an explicit `now : String` argument.
- The PTY carries the in-repo mock semantics (`pty_process.MockPtyProcess`):
  the real variant delegates spawn/write/resize to the external winpty handle,
  which is outside the repository.  Spawn outcomes (which depend on the host
  environment) enter `create_session` as an explicit `SpawnOutcome` argument.
- File I/O (atomic JSON writes, transcript lines) is modelled by the states
  the writes produce: `meta.json` contents per session, the `index.json`
  document, and the list of transcript events in append order.
-/

namespace CopilotCarousel

/-- Lookup in a Python dict modelled as an association list: first binding
for the key, as `dict.get(key)`. -/
def dict_get {α : Type} : List (String × α) → String → Option α
  | [], _ => none
  | (k, v) :: rest, key => if k = key then some v else dict_get rest key

/-- Item assignment in a Python dict modelled as an association list:
replace the first binding for the key, else append a new binding. -/
def dict_set {α : Type} : List (String × α) → String → α → List (String × α)
  | [], key, v => [(key, v)]
  | (k, w) :: rest, key, v =>
    if k = key then (key, v) :: rest else (k, w) :: dict_set rest key v

/-- Python `x or default` on an optional string: `None` and the empty string
are falsy and give the default. -/
def py_or_default : Option String → String → String
  | none, d => d
  | some s, d => if s = "" then d else s

/-- Python f-string rendering of a `str | None` value (`None` prints as
"None"). -/
def py_str_opt : Option String → String
  | none => "None"
  | some s => s

/-- Insert into a Python `set` modelled as a duplicate-free list
(`set.add`). -/
def set_add (l : List String) (x : String) : List String :=
  if l.contains x then l else l ++ [x]

/-! ## JSON values (`json.loads` output) for the wire protocol -/

/-- A JSON value as produced by `json.loads`.  Numbers are modelled as
integers (the protocol's numeric fields are integral); arrays and objects
nested inside message fields are collapsed to `jcomposite` with their
Python truthiness, since the validators reject every non-scalar uniformly. -/
inductive JValue where
  | jnull
  | jbool (b : Bool)
  | jint (n : Int)
  | jstr (s : String)
  | jcomposite (truthy : Bool)
  deriving DecidableEq, Repr

/-- Python truthiness of a JSON value. -/
def jtruthy : JValue → Bool
  | .jnull => false
  | .jbool b => b
  | .jint n => n ≠ 0
  | .jstr s => s ≠ ""
  | .jcomposite t => t

/-- A parsed top-level JSON object (the dict `json.loads` returns for a
well-formed client frame). -/
abbrev JsonObj := List (String × JValue)

/-! ## Protocol: client messages and validation (`app/ws/protocol.py`) -/

/-- A validated client message (the pydantic models of `protocol.py` as a
tagged union; the `type` discriminator becomes the constructor). -/
inductive ClientMessage where
  | sessionCreate
  | sessionAttach (sessionId : String)
  | sessionList
  | sessionTerminate (sessionId : String)
  | sessionRename (sessionId : String) (name : String)
  | termIn (sessionId : String) (data : String)
  | termResize (sessionId : String) (cols rows : Int)
  deriving DecidableEq, Repr

namespace ErrorCodes

def INVALID_MESSAGE : String := "INVALID_MESSAGE"
def UNKNOWN_MESSAGE_TYPE : String := "UNKNOWN_MESSAGE_TYPE"
def MAX_SESSIONS_REACHED : String := "MAX_SESSIONS_REACHED"
def SESSION_NOT_FOUND : String := "SESSION_NOT_FOUND"
def SPAWN_FAILED : String := "SPAWN_FAILED"
def INPUT_TOO_LARGE : String := "INPUT_TOO_LARGE"
def INVALID_RESIZE : String := "INVALID_RESIZE"
def INTERNAL_ERROR : String := "INTERNAL_ERROR"
def RATE_LIMIT_EXCEEDED : String := "RATE_LIMIT_EXCEEDED"
def NOT_ATTACHED : String := "NOT_ATTACHED"

end ErrorCodes

/-- Validation errors for the keys of `o` outside the model's field set
(pydantic `extra="forbid"`). -/
def extra_errors (o : JsonObj) (allowed : List String) : List String :=
  (o.filter (fun p => ¬ allowed.contains p.1)).map
    (fun p => p.1 ++ ": Extra inputs are not permitted")

/-- Validate a required `sessionId` field: a string of exactly 36
characters (`Field(..., min_length=36, max_length=36)`).  Returns the
collected errors and the value when valid. -/
def validate_session_id (o : JsonObj) : List String × Option String :=
  match dict_get o "sessionId" with
  | none => (["sessionId: Field required"], none)
  | some (.jstr s) =>
    if s.length < 36 then (["sessionId: String should have at least 36 characters"], none)
    else if 36 < s.length then (["sessionId: String should have at most 36 characters"], none)
    else ([], some s)
  | some _ => (["sessionId: Input should be a valid string"], none)

/-- Validate the `name` field of `session.rename`: a string of 1..100
characters. -/
def validate_name (o : JsonObj) : List String × Option String :=
  match dict_get o "name" with
  | none => (["name: Field required"], none)
  | some (.jstr s) =>
    if s.length < 1 then (["name: String should have at least 1 character"], none)
    else if 100 < s.length then (["name: String should have at most 100 characters"], none)
    else ([], some s)
  | some _ => (["name: Input should be a valid string"], none)

/-- Validate the `data` field of `term.in`: any string. -/
def validate_data (o : JsonObj) : List String × Option String :=
  match dict_get o "data" with
  | none => (["data: Field required"], none)
  | some (.jstr s) => ([], some s)
  | some _ => (["data: Input should be a valid string"], none)

/-- Validate an integer field with a `ge=1` bound (`cols`, `rows` of
`term.resize`). -/
def validate_dim (o : JsonObj) (field : String) : List String × Option Int :=
  match dict_get o field with
  | none => ([field ++ ": Field required"], none)
  | some (.jint n) =>
    if n < 1 then ([field ++ ": Input should be greater than or equal to 1"], none)
    else ([], some n)
  | some _ => ([field ++ ": Input should be a valid integer"], none)

/-- Pydantic model validation for `SessionCreateMessage`. -/
def parse_session_create (o : JsonObj) : Except (List String) ClientMessage :=
  let errs := extra_errors o ["type"]
  if errs.isEmpty then .ok .sessionCreate else .error errs

/-- Pydantic model validation for `SessionAttachMessage`. -/
def parse_session_attach (o : JsonObj) : Except (List String) ClientMessage :=
  let (es, sid) := validate_session_id o
  let errs := es ++ extra_errors o ["type", "sessionId"]
  match sid with
  | some s => if errs.isEmpty then .ok (.sessionAttach s) else .error errs
  | none => .error errs

/-- Pydantic model validation for `SessionListMessage`. -/
def parse_session_list (o : JsonObj) : Except (List String) ClientMessage :=
  let errs := extra_errors o ["type"]
  if errs.isEmpty then .ok .sessionList else .error errs

/-- Pydantic model validation for `SessionTerminateMessage`. -/
def parse_session_terminate (o : JsonObj) : Except (List String) ClientMessage :=
  let (es, sid) := validate_session_id o
  let errs := es ++ extra_errors o ["type", "sessionId"]
  match sid with
  | some s => if errs.isEmpty then .ok (.sessionTerminate s) else .error errs
  | none => .error errs

/-- Pydantic model validation for `SessionRenameMessage`. -/
def parse_session_rename (o : JsonObj) : Except (List String) ClientMessage :=
  let (es, sid) := validate_session_id o
  let (en, nm) := validate_name o
  let errs := es ++ en ++ extra_errors o ["type", "sessionId", "name"]
  match sid, nm with
  | some s, some n => if errs.isEmpty then .ok (.sessionRename s n) else .error errs
  | _, _ => .error errs

/-- Pydantic model validation for `TerminalInputMessage`. -/
def parse_term_in (o : JsonObj) : Except (List String) ClientMessage :=
  let (es, sid) := validate_session_id o
  let (ed, dt) := validate_data o
  let errs := es ++ ed ++ extra_errors o ["type", "sessionId", "data"]
  match sid, dt with
  | some s, some d => if errs.isEmpty then .ok (.termIn s d) else .error errs
  | _, _ => .error errs

/-- Pydantic model validation for `TerminalResizeMessage`. -/
def parse_term_resize (o : JsonObj) : Except (List String) ClientMessage :=
  let (es, sid) := validate_session_id o
  let (ec, cl) := validate_dim o "cols"
  let (er, rw) := validate_dim o "rows"
  let errs := es ++ ec ++ er ++ extra_errors o ["type", "sessionId", "cols", "rows"]
  match sid, cl, rw with
  | some s, some c, some r => if errs.isEmpty then .ok (.termResize s c r) else .error errs
  | _, _, _ => .error errs

/-- The exception raised by `parse_client_message`: either a plain
`ValueError` (unknown discriminator) or a pydantic `ValidationError`
(schema violation).  In pydantic v2 `ValidationError` is a subclass of
`ValueError`; `is_value_error` below records that subclass relation. -/
inductive ParseExc where
  | valueErr (message : String)
  | validationErr (errors : List String)
  deriving DecidableEq, Repr

/-- Python `isinstance(exc, ValueError)`: true for both constructors, since
pydantic's `ValidationError` subclasses `ValueError`. -/
def is_value_error : ParseExc → Bool
  | .valueErr _ => true
  | .validationErr _ => true

/-- Python f-string rendering of the raw `type` value for the unknown-type
`ValueError` message. -/
def jvalue_f_string : Option JValue → String
  | none => "None"
  | some .jnull => "None"
  | some (.jbool b) => if b then "True" else "False"
  | some (.jint n) => toString n
  | some (.jstr s) => s
  | some (.jcomposite _) => "<composite>"

/-- `protocol.parse_client_message`: dispatch on the raw `type` value to the
matching pydantic model, raising `ValueError` for an unknown type and
`ValidationError` for a schema violation. -/
def parse_client_message (o : JsonObj) : Except ParseExc ClientMessage :=
  let lift : Except (List String) ClientMessage → Except ParseExc ClientMessage :=
    fun r => match r with
      | .ok m => .ok m
      | .error es => .error (.validationErr es)
  match dict_get o "type" with
  | some (.jstr "session.create") => lift (parse_session_create o)
  | some (.jstr "session.attach") => lift (parse_session_attach o)
  | some (.jstr "session.list") => lift (parse_session_list o)
  | some (.jstr "session.terminate") => lift (parse_session_terminate o)
  | some (.jstr "session.rename") => lift (parse_session_rename o)
  | some (.jstr "term.in") => lift (parse_term_in o)
  | some (.jstr "term.resize") => lift (parse_term_resize o)
  | t => .error (.valueErr ("Unknown message type: " ++ jvalue_f_string t))

/-! ## Dispatcher (`app/ws/dispatcher.py`) -/

/-- Outcome of `MessageDispatcher.dispatch` up to handler invocation:
either an `error {code, message}` reply produced by the parse/validate
phase, or the validated message handed to the registered handler. -/
inductive DispatchOutcome where
  | errorResp (code message : String)
  | handled (msgType : String) (msg : ClientMessage)
  deriving DecidableEq, Repr

/-- Python `str(exc)` for the exception caught by the dispatcher (the
pydantic `ValidationError` rendering is approximated by joining the error
lines; no claim depends on its exact text). -/
def parse_exc_str : ParseExc → String
  | .valueErr m => m
  | .validationErr errs => String.intercalate "\n" errs

/-- The compact summary the dispatcher's `except ValidationError` branch
would build (`"; ".join(f"{loc}: {msg}")`). -/
def error_summary (errs : List String) : String :=
  String.intercalate "; " errs

/-- The message types registered on the global dispatcher in
`app/ws/router.py`. -/
def registered_types : List String :=
  ["session.create", "session.attach", "session.list",
   "session.terminate", "session.rename", "term.in", "term.resize"]

/-- `MessageDispatcher.dispatch` on an already-JSON-parsed object, up to
handler invocation.  Mirrors the source's control flow: the falsy-`type`
check, then `parse_client_message` inside a try whose FIRST clause is
`except ValueError` and whose second is `except ValidationError`; since
pydantic's `ValidationError` subclasses `ValueError`, the first clause
(returning `UNKNOWN_MESSAGE_TYPE`) captures both exception kinds and the
second (returning `INVALID_MESSAGE` with a summary) is unreachable.
Finally the handler registry is consulted by the raw `type` string. -/
def dispatch (handlers : List String) (o : JsonObj) : DispatchOutcome :=
  let msgTypeV := dict_get o "type"
  let msgTypeTruthy : Bool := match msgTypeV with | some v => jtruthy v | none => false
  if ¬ msgTypeTruthy then
    .errorResp ErrorCodes.INVALID_MESSAGE "Message must have a \x27type\x27 field"
  else
    match parse_client_message o with
    | .error exc =>
      if is_value_error exc then
        .errorResp ErrorCodes.UNKNOWN_MESSAGE_TYPE (parse_exc_str exc)
      else
        match exc with
        | .validationErr errs => .errorResp ErrorCodes.INVALID_MESSAGE (error_summary errs)
        | .valueErr m => .errorResp ErrorCodes.UNKNOWN_MESSAGE_TYPE m
    | .ok m =>
      let msgTypeStr := jvalue_f_string msgTypeV
      if handlers.contains msgTypeStr then
        .handled msgTypeStr m
      else
        .errorResp ErrorCodes.UNKNOWN_MESSAGE_TYPE ("Unknown message type: " ++ msgTypeStr)

/-- The error code of a dispatch outcome, `none` when a handler ran. -/
def outcome_code : DispatchOutcome → Option String
  | .errorResp code _ => some code
  | .handled _ _ => none

/-! ## Configuration (`app/config.py`) -/

/-- The environment-backed settings relevant to the session manager, with
the defaults of `config.Settings`.  Terminal dimensions are Python ints;
the session cap and the input-size cap are counts. -/
structure Settings where
  COPILOT_PATH : String := "copilot.exe"
  MAX_SESSIONS : Nat := 10
  INITIAL_COLS : Int := 120
  INITIAL_ROWS : Int := 30
  MIN_COLS : Int := 20
  MAX_COLS : Int := 300
  MIN_ROWS : Int := 5
  MAX_ROWS : Int := 120
  MAX_INPUT_CHARS_PER_MESSAGE : Nat := 16384
  deriving DecidableEq, Repr

/-- The default settings instance (`config.settings` with no environment
overrides). -/
def default_settings : Settings := {}

/-! ## PTY state (`app/sessions/pty_process.py`, mock semantics) -/

/-- Observable state of a PTY process.  Write/resize/terminate follow the
in-repo `MockPtyProcess`: `write` buffers the input when running, `resize`
succeeds exactly when running and caches the new dimensions, `terminate`
clears the running flag and latches the mock exit code. -/
structure PtyState where
  running : Bool
  cols : Int
  rows : Int
  pid : Option Nat
  exitCode : Option Int
  inputBuffer : List String
  mockExitCode : Int
  deriving DecidableEq, Repr

/-- `MockPtyProcess.write`: buffer the data when running, silently drop it
otherwise. -/
def pty_write (p : PtyState) (data : String) : PtyState :=
  if p.running then { p with inputBuffer := p.inputBuffer ++ [data] } else p

/-- `MockPtyProcess.resize`: fail when not running, else cache the new
dimensions and succeed. -/
def pty_resize (p : PtyState) (cols rows : Int) : Bool × PtyState :=
  if ¬ p.running then (false, p)
  else (true, { p with cols := cols, rows := rows })

/-- `MockPtyProcess.terminate`: clear the running flag and latch the mock
exit code. -/
def pty_terminate (p : PtyState) : PtyState :=
  { p with running := false, exitCode := some p.mockExitCode }

/-- `PtyProcess.stop`: terminate, cancel the read task (no observable state
here), release the handle. -/
def pty_stop (p : PtyState) : PtyState :=
  pty_terminate p

/-- Result of `pty.spawn(exe_path)`: the pid on success, the error message
otherwise.  The outcome depends on the host environment, so `create_session`
receives it as an argument. -/
inductive SpawnOutcome where
  | ok (pid : Nat)
  | fail (errMsg : Option String)
  deriving DecidableEq, Repr

/-! ## Meta store (`app/persistence/meta_store.py`) -/

/-- The `{code, message}` error object stored in `meta.json` when spawn
failed. -/
structure MetaError where
  code : String
  message : String
  deriving DecidableEq, Repr

/-- `meta_store.SessionMeta`, the per-session `meta.json` document. -/
structure SessionMeta where
  sessionId : String
  status : String
  createdAt : String
  lastActivityAt : String
  workspacePath : String
  pid : Option Nat
  cols : Int
  rows : Int
  exitCode : Option Int := none
  copilotPath : String
  error : Option MetaError := none
  deriving DecidableEq, Repr

/-- The on-disk meta documents: one `meta.json` per session id. -/
abbrev MetaDisk := List (String × SessionMeta)

/-- `MetaStore.create`: assemble the meta document — `status` is "exited"
exactly when an error object is present — persist it atomically, and return
it. -/
def meta_create (disk : MetaDisk) (now sessionId workspacePath copilotPath : String)
    (pid : Option Nat) (cols rows : Int) (error : Option MetaError) :
    SessionMeta × MetaDisk :=
  let status := if error.isSome then "exited" else "running"
  let meta : SessionMeta :=
    { sessionId := sessionId, status := status, createdAt := now,
      lastActivityAt := now, workspacePath := workspacePath, pid := pid,
      cols := cols, rows := rows, copilotPath := copilotPath, error := error }
  (meta, dict_set disk sessionId meta)

/-- `MetaStore.update_activity`: load-modify-save of `lastActivityAt`;
a no-op when the document is absent. -/
def meta_update_activity (disk : MetaDisk) (sessionId now : String) : MetaDisk :=
  match dict_get disk sessionId with
  | none => disk
  | some m => dict_set disk sessionId { m with lastActivityAt := now }

/-- `MetaStore.update_status`: load-modify-save of `status` (and `exitCode`
when one is given); always touches `lastActivityAt`; a no-op when the
document is absent. -/
def meta_update_status (disk : MetaDisk) (sessionId status : String)
    (exitCode : Option Int) (now : String) : MetaDisk :=
  match dict_get disk sessionId with
  | none => disk
  | some m =>
    let m2 := { m with status := status, lastActivityAt := now }
    let m3 := match exitCode with
      | some c => { m2 with exitCode := some c }
      | none => m2
    dict_set disk sessionId m3

/-- `MetaStore.update_dimensions`: load-modify-save of `cols`/`rows`;
touches `lastActivityAt`; a no-op when the document is absent. -/
def meta_update_dimensions (disk : MetaDisk) (sessionId : String)
    (cols rows : Int) (now : String) : MetaDisk :=
  match dict_get disk sessionId with
  | none => disk
  | some m =>
    dict_set disk sessionId { m with cols := cols, rows := rows, lastActivityAt := now }

/-! ## Index store (`app/persistence/index_store.py`) -/

/-- One entry of the `index.json` catalog. -/
structure IndexEntry where
  sessionId : String
  status : String
  createdAt : String
  lastActivityAt : String
  name : Option String := none
  deriving DecidableEq, Repr

/-- The `index.json` document. -/
structure IndexDoc where
  protocolVersion : Nat := 1
  updatedAt : String
  sessions : List IndexEntry
  deriving DecidableEq, Repr

/-- `IndexStore.save`: refresh `updatedAt` and write atomically. -/
def index_save (doc : IndexDoc) (now : String) : IndexDoc :=
  { doc with updatedAt := now }

/-- `IndexStore.add_session`: append a new entry and save. -/
def index_add_session (doc : IndexDoc) (sessionId status createdAt lastActivityAt : String)
    (name : Option String) (now : String) : IndexDoc :=
  index_save
    { doc with sessions := doc.sessions ++
        [{ sessionId := sessionId, status := status, createdAt := createdAt,
           lastActivityAt := lastActivityAt, name := name }] }
    now

/-- The loop body of `IndexStore.update_session_status`: update the first
entry with the given id (status, and `lastActivityAt` when given) and stop. -/
def update_status_first (entries : List IndexEntry) (sessionId status : String)
    (lastActivityAt : Option String) : List IndexEntry :=
  match entries with
  | [] => []
  | e :: rest =>
    if e.sessionId = sessionId then
      (match lastActivityAt with
       | some la => { e with status := status, lastActivityAt := la }
       | none => { e with status := status }) :: rest
    else
      e :: update_status_first rest sessionId status lastActivityAt

/-- `IndexStore.update_session_status`: first-match update, then save
(the save — and its `updatedAt` refresh — happens even when no entry
matched). -/
def update_session_status (doc : IndexDoc) (sessionId status : String)
    (lastActivityAt : Option String) (now : String) : IndexDoc :=
  index_save { doc with sessions := update_status_first doc.sessions sessionId status lastActivityAt } now

/-- The loop body of `IndexStore.update_session_name`: set the name of the
first entry with the given id; `none` when no entry matches. -/
def set_name_first (entries : List IndexEntry) (sessionId name : String) :
    Option (List IndexEntry) :=
  match entries with
  | [] => none
  | e :: rest =>
    if e.sessionId = sessionId then some ({ e with name := some name } :: rest)
    else match set_name_first rest sessionId name with
      | some rest2 => some (e :: rest2)
      | none => none

/-- `IndexStore.update_session_name`: on the first matching entry, set its
name, save, and return `true`; when no entry matches, return `false`
WITHOUT saving (the document, `updatedAt` included, is untouched). -/
def update_session_name (doc : IndexDoc) (sessionId name now : String) :
    Bool × IndexDoc :=
  match set_name_first doc.sessions sessionId name with
  | some entries2 => (true, index_save { doc with sessions := entries2 } now)
  | none => (false, doc)

/-! ## Transcript store (`app/persistence/transcript_store.py`) -/

/-- The `detail` mapping attached to a lifecycle event, one constructor per
call site in the session manager. -/
inductive LifeDetail where
  | pidDetail (pid : Option Nat)
  | exitCodeDetail (exitCode : Option Int)
  | clientDetail (clientId : String)
  | errorDetail (message : Option String)
  deriving DecidableEq, Repr

/-- The type-specific payload of a transcript event (the `**kwargs` of
`_create_event` at each call site). -/
inductive TPayload where
  | out (data : String)
  | inp (data : String)
  | resizeEv (cols rows : Int)
  | lifecycle (event : String) (detail : LifeDetail)
  deriving DecidableEq, Repr

/-- One line of `transcript.jsonl`. -/
structure TranscriptEvent where
  ts : String
  sessionId : String
  seq : Nat
  payload : TPayload
  deriving DecidableEq, Repr

/-- The transcript store's state: the per-session sequence counters
(`_seq_counters`) and every appended event, in append order across
sessions (a session's file is the subsequence with its id). -/
structure TranscriptState where
  counters : List (String × Nat)
  events : List TranscriptEvent
  deriving DecidableEq, Repr

/-- `TranscriptStore._get_next_seq`: default the session's counter to 0,
increment it, and return the incremented value. -/
def get_next_seq (counters : List (String × Nat)) (sessionId : String) :
    Nat × List (String × Nat) :=
  let cur := (dict_get counters sessionId).getD 0
  (cur + 1, dict_set counters sessionId (cur + 1))

/-- `TranscriptStore._reset_seq`: set the session's counter to 0. -/
def reset_seq (counters : List (String × Nat)) (sessionId : String) :
    List (String × Nat) :=
  dict_set counters sessionId 0

/-- `TranscriptStore.init_session`: reset the sequence counter and ensure
an empty transcript file exists (file creation leaves the event log as
is). -/
def init_session (tr : TranscriptState) (sessionId : String) : TranscriptState :=
  { tr with counters := reset_seq tr.counters sessionId }

/-- `TranscriptStore._create_event` followed by the append of its JSON
line: stamp `ts`, `sessionId` and the next `seq`, and append.  Both the
blocking (`_append_event_sync`) and non-blocking (`_append_event`) paths
reduce to this in a sequential embedding. -/
def append_event (tr : TranscriptState) (now sessionId : String)
    (payload : TPayload) : TranscriptState :=
  let (seq, counters2) := get_next_seq tr.counters sessionId
  { counters := counters2,
    events := tr.events ++
      [{ ts := now, sessionId := sessionId, seq := seq, payload := payload }] }

/-- `TranscriptStore.append_input_sync` (and `append_input`). -/
def append_input_sync (tr : TranscriptState) (now sessionId data : String) :
    TranscriptState :=
  append_event tr now sessionId (.inp data)

/-- `TranscriptStore.append_output` (and `append_output_sync`). -/
def append_output (tr : TranscriptState) (now sessionId data : String) :
    TranscriptState :=
  append_event tr now sessionId (.out data)

/-- `TranscriptStore.append_lifecycle` (and `append_lifecycle_sync`). -/
def append_lifecycle (tr : TranscriptState) (now sessionId event : String)
    (detail : LifeDetail) : TranscriptState :=
  append_event tr now sessionId (.lifecycle event detail)

/-! ## Session manager (`app/sessions/manager.py`) -/

/-- `manager.Session`: an active terminal session.  `is_running` is the
PTY's running flag; `attached_clients` is a client-id set. -/
structure Session where
  sessionId : String
  pty : PtyState
  attachedClients : List String
  meta : SessionMeta
  deriving DecidableEq, Repr

/-- The manager's observable state together with the three persistence
stores it drives: the in-memory session table, the on-disk `meta.json`
documents, the `index.json` document, and the transcript store. -/
structure SysState where
  sessions : List (String × Session)
  metaDisk : MetaDisk
  index : IndexDoc
  transcript : TranscriptState
  deriving DecidableEq, Repr

/-- `SessionManager.running_session_count`: the number of table entries
whose PTY is running. -/
def running_session_count : List (String × Session) → Nat
  | [] => 0
  | (_, s) :: rest =>
    (if s.pty.running then 1 else 0) + running_session_count rest

/-- `SessionManager.get_session`: table lookup. -/
def get_session (st : SysState) (sessionId : String) : Option Session :=
  dict_get st.sessions sessionId

/-- `paths.get_workspace_path` relative to the default data directory
(`str(path.absolute())` is host-dependent; claims never inspect the path
text). -/
def workspace_path_of (sessionId : String) : String :=
  "data/sessions/" ++ sessionId ++ "/workspace"

/-- `SessionManager.create_session`, with the spawn outcome passed in.
Under the lock: capacity check, directory creation, transcript init, PTY
construction, spawn; on spawn failure persist meta with a SPAWN_FAILED
error (pid null, status exited), add an exited index entry, append a
`spawn_failed` lifecycle event, and fail; on success persist meta and a
running index entry, append a `created` lifecycle event, insert the
session, and start the read loop. -/
def create_session (cfg : Settings) (st : SysState) (sessionId : String)
    (copilotPath : Option String) (spawn : SpawnOutcome) (now : String) :
    (Option Session × Option String × Option String) × SysState :=
  if running_session_count st.sessions ≥ cfg.MAX_SESSIONS then
    ((none, some ErrorCodes.MAX_SESSIONS_REACHED,
      some ("Maximum running sessions (" ++ toString cfg.MAX_SESSIONS ++ ") reached.")),
     st)
  else
    let workspacePath := workspace_path_of sessionId
    let tr1 := init_session st.transcript sessionId
    let exePath := match copilotPath with | some p => p | none => cfg.COPILOT_PATH
    match spawn with
    | .fail errMsg =>
      let err : MetaError :=
        { code := "SPAWN_FAILED", message := py_or_default errMsg "Unknown error" }
      let (meta, md2) := meta_create st.metaDisk now sessionId workspacePath exePath
        none cfg.INITIAL_COLS cfg.INITIAL_ROWS (some err)
      let ix2 := index_add_session st.index sessionId "exited" meta.createdAt
        meta.lastActivityAt none now
      let tr2 := append_lifecycle tr1 now sessionId "spawn_failed" (.errorDetail errMsg)
      ((none, some ErrorCodes.SPAWN_FAILED,
        some ("Failed to start copilot.exe: " ++ py_str_opt errMsg)),
       { sessions := st.sessions, metaDisk := md2, index := ix2, transcript := tr2 })
    | .ok pid =>
      let pty : PtyState :=
        { running := true, cols := cfg.INITIAL_COLS, rows := cfg.INITIAL_ROWS,
          pid := some pid, exitCode := none, inputBuffer := [], mockExitCode := 0 }
      let (meta, md2) := meta_create st.metaDisk now sessionId workspacePath exePath
        (some pid) cfg.INITIAL_COLS cfg.INITIAL_ROWS none
      let ix2 := index_add_session st.index sessionId "running" meta.createdAt
        meta.lastActivityAt none now
      let tr2 := append_lifecycle tr1 now sessionId "created" (.pidDetail (some pid))
      let session : Session :=
        { sessionId := sessionId, pty := pty, attachedClients := [], meta := meta }
      ((some session, none, none),
       { sessions := dict_set st.sessions sessionId session, metaDisk := md2,
         index := ix2, transcript := tr2 })

/-- `SessionManager.attach_session`: a session not in the in-memory table
gives SESSION_NOT_FOUND whether or not a meta document exists on disk
(restoration is a non-goal); otherwise the client id is added to
`attached_clients` and an `attached` lifecycle event is appended. -/
def attach_session (st : SysState) (sessionId clientId now : String) :
    (Option Session × Option String × Option String) × SysState :=
  match dict_get st.sessions sessionId with
  | none =>
    match dict_get st.metaDisk sessionId with
    | none =>
      ((none, some ErrorCodes.SESSION_NOT_FOUND,
        some ("Session does not exist: " ++ sessionId)), st)
    | some _ =>
      ((none, some ErrorCodes.SESSION_NOT_FOUND,
        some ("Session does not exist: " ++ sessionId)), st)
  | some s =>
    let s2 := { s with attachedClients := set_add s.attachedClients clientId }
    let tr2 := append_lifecycle st.transcript now sessionId "attached" (.clientDetail clientId)
    ((some s2, none, none),
     { st with sessions := dict_set st.sessions sessionId s2, transcript := tr2 })

/-- `SessionManager.terminate_session`: unknown id gives SESSION_NOT_FOUND;
otherwise stop the PTY, persist `status=exited` with the exit code, update
the index, and append a `terminated` lifecycle event.  The session stays
in the table. -/
def terminate_session (st : SysState) (sessionId now : String) :
    (Option Int × Option String × Option String) × SysState :=
  match dict_get st.sessions sessionId with
  | none =>
    ((none, some ErrorCodes.SESSION_NOT_FOUND,
      some ("Session does not exist: " ++ sessionId)), st)
  | some s =>
    let pty2 := pty_stop s.pty
    let exitCode := pty2.exitCode
    let sessions2 := dict_set st.sessions sessionId { s with pty := pty2 }
    let md2 := meta_update_status st.metaDisk sessionId "exited" exitCode now
    let ix2 := update_session_status st.index sessionId "exited" (some now) now
    let tr2 := append_lifecycle st.transcript now sessionId "terminated"
      (.exitCodeDetail exitCode)
    ((exitCode, none, none),
     { sessions := sessions2, metaDisk := md2, index := ix2, transcript := tr2 })

/-- `SessionManager.send_input`: validations in order — size, then session
existence, then running state; on success write to the PTY, append an
input event (sync path), and update `lastActivityAt` in meta. -/
def send_input (cfg : Settings) (st : SysState) (sessionId data now : String) :
    (Bool × Option String × Option String) × SysState :=
  if data.length > cfg.MAX_INPUT_CHARS_PER_MESSAGE then
    ((false, some ErrorCodes.INPUT_TOO_LARGE,
      some ("Input exceeds " ++ toString cfg.MAX_INPUT_CHARS_PER_MESSAGE ++ " characters.")),
     st)
  else
    match dict_get st.sessions sessionId with
    | none =>
      ((false, some ErrorCodes.SESSION_NOT_FOUND,
        some ("Session does not exist: " ++ sessionId)), st)
    | some s =>
      if ¬ s.pty.running then
        ((false, some "SESSION_NOT_RUNNING", some "Session is not running"), st)
      else
        let pty2 := pty_write s.pty data
        let sessions2 := dict_set st.sessions sessionId { s with pty := pty2 }
        let tr2 := append_input_sync st.transcript now sessionId data
        let md2 := meta_update_activity st.metaDisk sessionId now
        ((true, none, none),
         { sessions := sessions2, metaDisk := md2, index := st.index, transcript := tr2 })

/-- The bounds text of the INVALID_RESIZE error message. -/
def resize_bounds_message (cfg : Settings) : String :=
  "cols must be " ++ toString cfg.MIN_COLS ++ "-" ++ toString cfg.MAX_COLS ++
  " and rows must be " ++ toString cfg.MIN_ROWS ++ "-" ++ toString cfg.MAX_ROWS ++ "."

/-- `SessionManager.resize_session`: bounds validation (cols, then rows),
then session lookup, then the PTY resize, then persistence of the new
dimensions. -/
def resize_session (cfg : Settings) (st : SysState) (sessionId : String)
    (cols rows : Int) (now : String) :
    (Bool × Option String × Option String) × SysState :=
  if ¬ (cfg.MIN_COLS ≤ cols ∧ cols ≤ cfg.MAX_COLS) then
    ((false, some ErrorCodes.INVALID_RESIZE, some (resize_bounds_message cfg)), st)
  else if ¬ (cfg.MIN_ROWS ≤ rows ∧ rows ≤ cfg.MAX_ROWS) then
    ((false, some ErrorCodes.INVALID_RESIZE, some (resize_bounds_message cfg)), st)
  else
    match dict_get st.sessions sessionId with
    | none =>
      ((false, some ErrorCodes.SESSION_NOT_FOUND,
        some ("Session does not exist: " ++ sessionId)), st)
    | some s =>
      match pty_resize s.pty cols rows with
      | (false, pty2) =>
        ((false, some "RESIZE_FAILED", some "Failed to resize terminal"),
         { st with sessions := dict_set st.sessions sessionId { s with pty := pty2 } })
      | (true, pty2) =>
        let sessions2 := dict_set st.sessions sessionId { s with pty := pty2 }
        let md2 := meta_update_dimensions st.metaDisk sessionId cols rows now
        ((true, none, none),
         { st with sessions := sessions2, metaDisk := md2 })

/-- The PTY exit path (`PtyProcess._handle_exit` followed by the manager's
`_on_pty_exit` trampoline): clear the running flag and latch the exit
code, then persist `status=exited`, update the index, and append an
`exited` lifecycle event. -/
def pty_exit_step (st : SysState) (sessionId : String) (exitCode : Option Int)
    (now : String) : SysState :=
  match dict_get st.sessions sessionId with
  | none => st
  | some s =>
    let pty2 := { s.pty with running := false, exitCode := exitCode }
    let sessions2 := dict_set st.sessions sessionId { s with pty := pty2 }
    let md2 := meta_update_status st.metaDisk sessionId "exited" exitCode now
    let ix2 := update_session_status st.index sessionId "exited" (some now) now
    let tr2 := append_lifecycle st.transcript now sessionId "exited" (.exitCodeDetail exitCode)
    { sessions := sessions2, metaDisk := md2, index := ix2, transcript := tr2 }

/-- The termination loop of `SessionManager.shutdown`. -/
def shutdown_loop (now : String) : List String → SysState → SysState
  | [], st => st
  | sessionId :: rest, st =>
    shutdown_loop now rest (terminate_session st sessionId now).2

/-- `SessionManager.shutdown`: best-effort terminate every known session,
then clear the table. -/
def shutdown (st : SysState) (now : String) : SysState :=
  let st2 := shutdown_loop now (st.sessions.map Prod.fst) st
  { st2 with sessions := [] }

/-! ## Channel handlers (`app/ws/router.py`) -/

/-- The per-connection state relevant to routing: the session id the
channel is currently bound to (`WebSocketConnection._attached_session`). -/
structure ConnState where
  attachedSession : Option String
  deriving DecidableEq, Repr

/-- A handler reply (the response dict a handler returns). -/
inductive HandlerResp where
  | errorResp (code message : String)
  | sessionRenamed (sessionId name : String)
  deriving DecidableEq, Repr

/-- `router.handle_term_in`: reply NOT_ATTACHED when the connection is
missing or bound to a different session (send_input is not reached);
otherwise forward to `send_input` and reply only on error. -/
def handle_term_in (cfg : Settings) (st : SysState) (conn : Option ConnState)
    (sessionId data now : String) : Option HandlerResp × SysState :=
  let notBound : Bool := match conn with
    | none => true
    | some c => c.attachedSession ≠ some sessionId
  if notBound then
    (some (.errorResp ErrorCodes.NOT_ATTACHED ("Not attached to session: " ++ sessionId)), st)
  else
    let ((_, errCode, errMsg), st2) := send_input cfg st sessionId data now
    match errCode with
    | some code => (some (.errorResp code (errMsg.getD "")), st2)
    | none => (none, st2)

/-- `router.handle_session_rename`: update the index entry's name; a
missing entry gives SESSION_NOT_FOUND, else reply `session.renamed`. -/
def handle_session_rename (st : SysState) (sessionId name now : String) :
    HandlerResp × SysState :=
  let (success, ix2) := update_session_name st.index sessionId name now
  if success then
    (.sessionRenamed sessionId name, { st with index := ix2 })
  else
    (.errorResp ErrorCodes.SESSION_NOT_FOUND ("Session not found: " ++ sessionId),
     { st with index := ix2 })

/-! ## Lifecycle state machine (for the MAX_SESSIONS invariant) -/

/-- A valid lifecycle operation: session creation (with its environmental
inputs), termination, a session's own PTY exit, or manager shutdown. -/
inductive LifecycleOp where
  | create (sessionId : String) (copilotPath : Option String)
      (spawn : SpawnOutcome) (now : String)
  | terminate (sessionId now : String)
  | ptyExited (sessionId : String) (exitCode : Option Int) (now : String)
  | managerShutdown (now : String)
  deriving DecidableEq, Repr

/-- Apply one lifecycle operation through the manager's entry points. -/
def apply_op (cfg : Settings) (st : SysState) : LifecycleOp → SysState
  | .create sessionId copilotPath spawn now =>
    (create_session cfg st sessionId copilotPath spawn now).2
  | .terminate sessionId now => (terminate_session st sessionId now).2
  | .ptyExited sessionId exitCode now => pty_exit_step st sessionId exitCode now
  | .managerShutdown now => shutdown st now

/-- Apply a sequence of lifecycle operations. -/
def apply_ops (cfg : Settings) (st : SysState) : List LifecycleOp → SysState
  | [] => st
  | op :: rest => apply_ops cfg (apply_op cfg st op) rest

/-- The manager's state at process start: empty table, no persisted
documents, a fresh empty index, a fresh transcript store. -/
def init_state : SysState :=
  { sessions := [], metaDisk := [],
    index := { updatedAt := "", sessions := [] },
    transcript := { counters := [], events := [] } }

/-! ## Batched transcript appends (for the seq-numbering property) -/

/-- A batch of appends to one session's transcript, each item giving the
timestamp and payload of one event (any mix of the four event types; both
the blocking and non-blocking paths reduce to `append_event`). -/
def append_run (sessionId : String) :
    TranscriptState → List (String × TPayload) → TranscriptState
  | tr, [] => tr
  | tr, (now, payload) :: rest =>
    append_run sessionId (append_event tr now sessionId payload) rest

/-- The seq values stamped on the events a batch of appends added beyond
those already present, in append order. -/
def run_seqs (tr : TranscriptState) (sessionId : String)
    (items : List (String × TPayload)) : List Nat :=
  ((append_run sessionId tr items).events.drop tr.events.length).map
    (fun e => e.seq)

/-! ## Concrete sample values (used by the witness theorems) -/

/-- A well-formed 36-character session id. -/
def sid0 : String := "00000000-0000-4000-8000-000000000000"

/-- A second well-formed 36-character session id. -/
def sid1 : String := "11111111-1111-4111-8111-111111111111"

/-- A running mock PTY as `create_session` builds it. -/
def sample_pty : PtyState :=
  { running := true, cols := 120, rows := 30, pid := some 99999,
    exitCode := none, inputBuffer := [], mockExitCode := 0 }

/-- A meta document for a running session. -/
def sample_meta : SessionMeta :=
  { sessionId := sid0, status := "running", createdAt := "t0",
    lastActivityAt := "t0", workspacePath := workspace_path_of sid0,
    pid := some 99999, cols := 120, rows := 30, copilotPath := "copilot.exe" }

/-- A running in-memory session. -/
def sample_session : Session :=
  { sessionId := sid0, pty := sample_pty, attachedClients := [],
    meta := sample_meta }

/-- A one-entry index document. -/
def sample_index : IndexDoc :=
  { updatedAt := "t0",
    sessions := [{ sessionId := sid0, status := "running", createdAt := "t0",
                   lastActivityAt := "t0", name := none }] }

/-- A system state holding one running session, its meta document, its
index entry, and a transcript whose counter has advanced past the
`created` event. -/
def sample_state : SysState :=
  { sessions := [(sid0, sample_session)],
    metaDisk := [(sid0, sample_meta)],
    index := sample_index,
    transcript := { counters := [(sid0, 1)], events := [] } }

/-- A post-restart system state: the meta document survives on disk but
the in-memory session table is empty. -/
def sample_state_restart : SysState :=
  { sessions := [],
    metaDisk := [(sid0, sample_meta)],
    index := sample_index,
    transcript := { counters := [], events := [] } }

/-! ## Helper lemmas -/

theorem dict_get_set_self {α : Type} (l : List (String × α)) (k : String) (v : α) :
    dict_get (dict_set l k v) k = some v := by
  induction l with
  | nil => simp [dict_set, dict_get]
  | cons hd tl ih =>
    by_cases h : hd.1 = k
    · simp [dict_set, dict_get, h]
    · simpa [dict_set, dict_get, h] using ih

theorem running_count_set_le (t : List (String × Session)) (k : String) (s : Session) :
    running_session_count (dict_set t k s) ≤
      running_session_count t + (if s.pty.running then 1 else 0) := by
  induction t with
  | nil => simp [dict_set, running_session_count]
  | cons hd tl ih =>
    obtain ⟨k2, v⟩ := hd
    by_cases h : k2 = k
    · subst h
      simp only [dict_set, if_pos rfl, running_session_count]
      omega
    · simp only [dict_set, if_neg h, running_session_count]
      omega

theorem running_count_set_stopped (t : List (String × Session)) (k : String)
    (s s0 : Session) (h : dict_get t k = some s0) (hr : s.pty.running = false) :
    running_session_count t =
      running_session_count (dict_set t k s) + (if s0.pty.running then 1 else 0) := by
  induction t with
  | nil => simp [dict_get] at h
  | cons hd tl ih =>
    obtain ⟨k2, v⟩ := hd
    by_cases hk : k2 = k
    · subst hk
      simp only [dict_get, eq_self_iff_true, if_true, Option.some_inj] at h
      subst h
      simp only [dict_set, if_pos rfl, running_session_count, hr,
        Bool.false_eq_true, if_false]
      omega
    · simp only [dict_get, if_neg hk] at h
      simp only [dict_set, if_neg hk, running_session_count]
      rw [ih h]
      omega

theorem append_run_events_extend (sessionId : String)
    (items : List (String × TPayload)) :
    ∀ tr : TranscriptState, ∃ tail,
      (append_run sessionId tr items).events = tr.events ++ tail := by
  induction items with
  | nil => intro tr; exact ⟨[], by simp [append_run]⟩
  | cons hd tl ih =>
    intro tr
    obtain ⟨now, payload⟩ := hd
    obtain ⟨tail, htail⟩ := ih (append_event tr now sessionId payload)
    refine ⟨{ ts := now, sessionId := sessionId,
              seq := (dict_get tr.counters sessionId).getD 0 + 1,
              payload := payload } :: tail, ?_⟩
    have h1 : append_run sessionId tr ((now, payload) :: tl) =
        append_run sessionId (append_event tr now sessionId payload) tl := rfl
    rw [h1, htail]
    simp [append_event, get_next_seq]

theorem run_seqs_of_counter (sessionId : String) (items : List (String × TPayload)) :
    ∀ (tr : TranscriptState) (k : Nat),
      dict_get tr.counters sessionId = some k →
      run_seqs tr sessionId items = List.range' (k + 1) items.length := by
  induction items with
  | nil =>
    intro tr k _
    simp [run_seqs, append_run, List.drop_length]
  | cons hd tl ih =>
    intro tr k hk
    obtain ⟨now, payload⟩ := hd
    have hev : (append_event tr now sessionId payload).events =
        tr.events ++ [{ ts := now, sessionId := sessionId, seq := k + 1,
                        payload := payload }] := by
      simp [append_event, get_next_seq, hk]
    have hcnt : dict_get (append_event tr now sessionId payload).counters sessionId
        = some (k + 1) := by
      simp [append_event, get_next_seq, hk, dict_get_set_self]
    have ihr := ih (append_event tr now sessionId payload) (k + 1) hcnt
    obtain ⟨tail, htail⟩ := append_run_events_extend sessionId tl
      (append_event tr now sessionId payload)
    have hrun : (append_run sessionId tr ((now, payload) :: tl)).events =
        (append_run sessionId (append_event tr now sessionId payload) tl).events := rfl
    have htaildrop : ((append_run sessionId (append_event tr now sessionId payload) tl).events.drop
        (append_event tr now sessionId payload).events.length) = tail := by
      rw [htail]; exact List.drop_left _ _
    have htailmap : tail.map (fun e => e.seq) = List.range' (k + 1 + 1) tl.length := by
      unfold run_seqs at ihr
      rw [htaildrop] at ihr
      exact ihr
    unfold run_seqs
    rw [hrun, htail, hev, List.append_assoc, List.drop_left]
    simp only [List.singleton_append, List.map_cons, List.length_cons, htailmap,
      List.range'_succ]

theorem set_name_first_none_iff (entries : List IndexEntry) (sessionId name : String) :
    set_name_first entries sessionId name = none ↔
      ∀ e ∈ entries, e.sessionId ≠ sessionId := by
  induction entries with
  | nil => simp [set_name_first]
  | cons hd tl ih =>
    by_cases h : hd.sessionId = sessionId
    · simp [set_name_first, h]
    · simp only [set_name_first, h, if_false]
      constructor
      · intro hnone
        cases hrec : set_name_first tl sessionId name with
        | some r => rw [hrec] at hnone; simp at hnone
        | none =>
          intro e he
          rcases List.mem_cons.mp he with rfl | htl
          · exact h
          · exact (ih.mp hrec) e htl
      · intro hall
        cases hrec : set_name_first tl sessionId name with
        | some r =>
          exfalso
          have : ∀ e ∈ tl, e.sessionId ≠ sessionId := fun e he =>
            hall e (List.mem_cons_of_mem _ he)
          rw [ih.mpr this] at hrec
          exact Option.noConfusion hrec
        | none => simp [hrec]

theorem set_name_first_decomp (pre : List IndexEntry) (e : IndexEntry)
    (post : List IndexEntry) (sessionId name : String)
    (hpre : ∀ e2 ∈ pre, e2.sessionId ≠ sessionId) (he : e.sessionId = sessionId) :
    set_name_first (pre ++ e :: post) sessionId name =
      some (pre ++ { e with name := some name } :: post) := by
  induction pre with
  | nil => simp [set_name_first, he]
  | cons hd tl ih =>
    have hhd : hd.sessionId ≠ sessionId := hpre hd (List.mem_cons_self _ _)
    have htl : ∀ e2 ∈ tl, e2.sessionId ≠ sessionId := fun e2 h2 =>
      hpre e2 (List.mem_cons_of_mem _ h2)
    simp [set_name_first, hhd, ih htl]

theorem shutdown_clears_table (st : SysState) (now : String) :
    (shutdown st now).sessions = [] := rfl

theorem apply_op_count_le (cfg : Settings) (st : SysState) (op : LifecycleOp)
    (h : running_session_count st.sessions ≤ cfg.MAX_SESSIONS) :
    running_session_count (apply_op cfg st op).sessions ≤ cfg.MAX_SESSIONS := by
  cases op with
  | create sessionId copilotPath spawn now =>
    simp only [apply_op, create_session]
    by_cases hcap : running_session_count st.sessions ≥ cfg.MAX_SESSIONS
    · simpa [hcap] using h
    · have hlt : running_session_count st.sessions + 1 ≤ cfg.MAX_SESSIONS := by omega
      rw [if_neg hcap]
      cases spawn with
      | fail errMsg => simpa using h
      | ok pid =>
        have hle := running_count_set_le st.sessions sessionId
          { sessionId := sessionId,
            pty := { running := true, cols := cfg.INITIAL_COLS,
                     rows := cfg.INITIAL_ROWS, pid := some pid, exitCode := none,
                     inputBuffer := [], mockExitCode := 0 },
            attachedClients := [],
            meta := (meta_create st.metaDisk now sessionId
              (workspace_path_of sessionId)
              (match copilotPath with | some p => p | none => cfg.COPILOT_PATH)
              (some pid) cfg.INITIAL_COLS cfg.INITIAL_ROWS none).1 }
        simp only [if_true] at hle
        simpa using le_trans hle hlt
  | terminate sessionId now =>
    simp only [apply_op, terminate_session]
    cases hdg : dict_get st.sessions sessionId with
    | none => simpa using h
    | some s =>
      have hle := running_count_set_le st.sessions sessionId { s with pty := pty_stop s.pty }
      simp only [pty_stop, pty_terminate, Bool.false_eq_true, if_false] at hle
      simpa using le_trans hle h
  | ptyExited sessionId exitCode now =>
    simp only [apply_op, pty_exit_step]
    cases hdg : dict_get st.sessions sessionId with
    | none => simpa using h
    | some s =>
      have hle := running_count_set_le st.sessions sessionId
        { s with pty := { s.pty with running := false, exitCode := exitCode } }
      simp only [Bool.false_eq_true, if_false] at hle
      simpa using le_trans hle h
  | managerShutdown now =>
    simp only [apply_op, shutdown, running_session_count]
    exact Nat.zero_le _

theorem apply_ops_count_le (cfg : Settings) (ops : List LifecycleOp) :
    ∀ st : SysState, running_session_count st.sessions ≤ cfg.MAX_SESSIONS →
      running_session_count (apply_ops cfg st ops).sessions ≤ cfg.MAX_SESSIONS := by
  induction ops with
  | nil => intro st h; simpa [apply_ops] using h
  | cons op rest ih =>
    intro st h
    exact ih (apply_op cfg st op) (apply_op_count_le cfg st op h)

/-! ## Claim theorems -/

/-- Claim C1 (code behaviour at the failing input): dispatching a message
whose `type` is the registered "session.attach" but which is missing the
required `sessionId` field — a schema violation that raises a pydantic
`ValidationError` — produces an error with code UNKNOWN_MESSAGE_TYPE, not
the INVALID_MESSAGE the specification requires, because the dispatcher's
`except ValueError` clause precedes its `except ValidationError` clause
and pydantic's `ValidationError` subclasses `ValueError`. -/
theorem c1_schema_violation_yields_unknown_message_type :
    outcome_code (dispatch registered_types [("type", JValue.jstr "session.attach")])
      = some ErrorCodes.UNKNOWN_MESSAGE_TYPE ∧
    outcome_code (dispatch registered_types [("type", JValue.jstr "session.attach")])
      ≠ some ErrorCodes.INVALID_MESSAGE := by
  exact ⟨rfl, by decide⟩

/-- Claim C4: after `init_session(id)`, the seq values stamped on any batch
of transcript appends for that session — any mix of event types, covering
both append paths — are exactly 1, 2, 3, …, with no gaps and no repeats;
the reset makes the first append get seq 1. -/
theorem c4_transcript_seq_spec (tr : TranscriptState) (sessionId : String)
    (items : List (String × TPayload)) :
    run_seqs (init_session tr sessionId) sessionId items =
      List.range' 1 items.length := by
  have h0 : dict_get (init_session tr sessionId).counters sessionId = some 0 := by
    simp [init_session, reset_seq, dict_get_set_self]
  simpa using run_seqs_of_counter sessionId items (init_session tr sessionId) 0 h0

/-- Claim C5: over any sequence of valid lifecycle operations from the
initial state, the running-session count never exceeds MAX_SESSIONS; and
whenever `create_session` is called with the running count already at or
above MAX_SESSIONS it fails with MAX_SESSIONS_REACHED and the exact
capacity message, leaving the state (and hence the table) unchanged. -/
theorem c5_max_sessions_invariant (cfg : Settings) (ops : List LifecycleOp)
    (st : SysState) (sessionId : String) (copilotPath : Option String)
    (spawn : SpawnOutcome) (now : String) :
    running_session_count (apply_ops cfg init_state ops).sessions ≤ cfg.MAX_SESSIONS
    ∧ (running_session_count st.sessions ≥ cfg.MAX_SESSIONS →
        create_session cfg st sessionId copilotPath spawn now =
          ((none, some ErrorCodes.MAX_SESSIONS_REACHED,
            some ("Maximum running sessions (" ++ toString cfg.MAX_SESSIONS ++ ") reached.")),
           st)) := by
  constructor
  · exact apply_ops_count_le cfg ops init_state
      (by simp [init_state, running_session_count])
  · intro hcap
    simp [create_session, hcap]

/-- Witness for C5 at a concrete state: one running session against a cap
of 1; `create_session` refuses with the capacity message and leaves the
state unchanged. -/
theorem c5_max_sessions_invariant_witness :
    running_session_count sample_state.sessions ≥ (1 : Nat)
    ∧ create_session { MAX_SESSIONS := 1 } sample_state sid1 none (.ok 7) "t1" =
        ((none, some ErrorCodes.MAX_SESSIONS_REACHED,
          some "Maximum running sessions (1) reached."), sample_state) :=
  ⟨by decide,
   (c5_max_sessions_invariant { MAX_SESSIONS := 1 } [] sample_state sid1 none
      (.ok 7) "t1").2 (by decide)⟩

/-- Claim C2: on a known running (mock) session whose meta document is on
disk, `resize_session` succeeds iff both dimensions are within the
configured bounds; a violation of either bound yields INVALID_RESIZE with
the bounds message and leaves the whole state — cached dimensions
included — unchanged; on success the session's cached cols/rows equal the
request and the meta document read next reflects the same dimensions. -/
theorem c2_resize_session_spec (cfg : Settings) (st : SysState)
    (sessionId : String) (cols rows : Int) (now : String)
    (s : Session) (m : SessionMeta)
    (hs : dict_get st.sessions sessionId = some s)
    (hrun : s.pty.running = true)
    (hm : dict_get st.metaDisk sessionId = some m) :
    ((resize_session cfg st sessionId cols rows now).1.1 = true ↔
      (cfg.MIN_COLS ≤ cols ∧ cols ≤ cfg.MAX_COLS ∧
       cfg.MIN_ROWS ≤ rows ∧ rows ≤ cfg.MAX_ROWS))
    ∧ (¬ (cfg.MIN_COLS ≤ cols ∧ cols ≤ cfg.MAX_COLS ∧
          cfg.MIN_ROWS ≤ rows ∧ rows ≤ cfg.MAX_ROWS) →
        resize_session cfg st sessionId cols rows now =
          ((false, some ErrorCodes.INVALID_RESIZE, some (resize_bounds_message cfg)), st))
    ∧ ((cfg.MIN_COLS ≤ cols ∧ cols ≤ cfg.MAX_COLS ∧
        cfg.MIN_ROWS ≤ rows ∧ rows ≤ cfg.MAX_ROWS) →
        (resize_session cfg st sessionId cols rows now).1 = (true, none, none) ∧
        dict_get (resize_session cfg st sessionId cols rows now).2.sessions sessionId =
          some { s with pty := { s.pty with cols := cols, rows := rows } } ∧
        dict_get (resize_session cfg st sessionId cols rows now).2.metaDisk sessionId =
          some { m with cols := cols, rows := rows, lastActivityAt := now }) := by
  by_cases hc : cfg.MIN_COLS ≤ cols ∧ cols ≤ cfg.MAX_COLS
  · by_cases hr2 : cfg.MIN_ROWS ≤ rows ∧ rows ≤ cfg.MAX_ROWS
    · have hpty : pty_resize s.pty cols rows =
          (true, { s.pty with cols := cols, rows := rows }) := by
        simp [pty_resize, hrun]
      have hres : resize_session cfg st sessionId cols rows now =
          ((true, none, none),
           { st with
             sessions := dict_set st.sessions sessionId
               { s with pty := { s.pty with cols := cols, rows := rows } },
             metaDisk := dict_set st.metaDisk sessionId
               { m with cols := cols, rows := rows, lastActivityAt := now } }) := by
        unfold resize_session
        rw [if_neg (not_not_intro hc), if_neg (not_not_intro hr2), hs]
        simp only [hpty, meta_update_dimensions, hm]
      refine ⟨?_, ?_, ?_⟩
      · rw [hres]
        simp [hc.1, hc.2, hr2.1, hr2.2]
      · intro hviol; exact absurd ⟨hc.1, hc.2, hr2.1, hr2.2⟩ hviol
      · intro _
        refine ⟨by rw [hres], ?_, ?_⟩
        · rw [hres]; exact dict_get_set_self _ _ _
        · rw [hres]; exact dict_get_set_self _ _ _
    · have hres : resize_session cfg st sessionId cols rows now =
          ((false, some ErrorCodes.INVALID_RESIZE, some (resize_bounds_message cfg)), st) := by
        unfold resize_session
        rw [if_neg (not_not_intro hc), if_pos hr2]
      refine ⟨?_, fun _ => hres, ?_⟩
      · rw [hres]
        constructor
        · intro habs; simp at habs
        · intro hb; exact absurd ⟨hb.2.2.1, hb.2.2.2⟩ hr2
      · intro hb; exact absurd ⟨hb.2.2.1, hb.2.2.2⟩ hr2
  · have hres : resize_session cfg st sessionId cols rows now =
        ((false, some ErrorCodes.INVALID_RESIZE, some (resize_bounds_message cfg)), st) := by
      unfold resize_session
      rw [if_pos hc]
    refine ⟨?_, fun _ => hres, ?_⟩
    · rw [hres]
      constructor
      · intro habs; simp at habs
      · intro hb; exact absurd ⟨hb.1, hb.2.1⟩ hc
    · intro hb; exact absurd ⟨hb.1, hb.2.1⟩ hc

/-- Witness for C2 at a concrete running session: resizing to 100×40 under
the default bounds succeeds, and the success-iff-bounds equivalence holds
at that input. -/
theorem c2_resize_session_spec_witness :
    dict_get sample_state.sessions sid0 = some sample_session
    ∧ sample_session.pty.running = true
    ∧ dict_get sample_state.metaDisk sid0 = some sample_meta
    ∧ ((resize_session default_settings sample_state sid0 100 40 "t1").1.1 = true ↔
        (default_settings.MIN_COLS ≤ (100 : Int) ∧ (100 : Int) ≤ default_settings.MAX_COLS ∧
         default_settings.MIN_ROWS ≤ (40 : Int) ∧ (40 : Int) ≤ default_settings.MAX_ROWS)) :=
  ⟨rfl, rfl, rfl,
   (c2_resize_session_spec default_settings sample_state sid0 100 40 "t1"
      sample_session sample_meta rfl rfl rfl).1⟩

/-- Claim C3: `send_input` validates in order — size first (INPUT_TOO_LARGE
even for an unknown id), then existence (SESSION_NOT_FOUND), then running
state (SESSION_NOT_RUNNING) — and on any rejection the state (PTY buffer
included) is untouched; on acceptance the data is written to the PTY
buffer, an input event for the session is appended to the transcript, and
`lastActivityAt` is updated in the on-disk meta document. -/
theorem c3_send_input_spec (cfg : Settings) (st : SysState)
    (sessionId data now : String) :
    (data.length > cfg.MAX_INPUT_CHARS_PER_MESSAGE →
      send_input cfg st sessionId data now =
        ((false, some ErrorCodes.INPUT_TOO_LARGE,
          some ("Input exceeds " ++ toString cfg.MAX_INPUT_CHARS_PER_MESSAGE ++ " characters.")),
         st))
    ∧ (data.length ≤ cfg.MAX_INPUT_CHARS_PER_MESSAGE →
       dict_get st.sessions sessionId = none →
        send_input cfg st sessionId data now =
          ((false, some ErrorCodes.SESSION_NOT_FOUND,
            some ("Session does not exist: " ++ sessionId)), st))
    ∧ (∀ s : Session, data.length ≤ cfg.MAX_INPUT_CHARS_PER_MESSAGE →
       dict_get st.sessions sessionId = some s → s.pty.running = false →
        send_input cfg st sessionId data now =
          ((false, some "SESSION_NOT_RUNNING", some "Session is not running"), st))
    ∧ (∀ s : Session, data.length ≤ cfg.MAX_INPUT_CHARS_PER_MESSAGE →
       dict_get st.sessions sessionId = some s → s.pty.running = true →
        (send_input cfg st sessionId data now).1 = (true, none, none) ∧
        dict_get (send_input cfg st sessionId data now).2.sessions sessionId =
          some { s with pty := { s.pty with inputBuffer := s.pty.inputBuffer ++ [data] } } ∧
        (∃ ev : TranscriptEvent,
          (send_input cfg st sessionId data now).2.transcript.events =
            st.transcript.events ++ [ev] ∧
          ev.sessionId = sessionId ∧ ev.payload = .inp data) ∧
        (∀ m : SessionMeta, dict_get st.metaDisk sessionId = some m →
          dict_get (send_input cfg st sessionId data now).2.metaDisk sessionId =
            some { m with lastActivityAt := now })) := by
  refine ⟨?_, ?_, ?_, ?_⟩
  · intro hbig
    unfold send_input
    rw [if_pos hbig]
  · intro hsz hnone
    unfold send_input
    rw [if_neg (not_lt_of_le hsz), hnone]
  · intro s hsz hsome hnr
    unfold send_input
    rw [if_neg (not_lt_of_le hsz), hsome]
    simp [hnr]
  · intro s hsz hsome hrun
    have hres : send_input cfg st sessionId data now =
        ((true, none, none),
         { sessions := dict_set st.sessions sessionId
             { s with pty := { s.pty with inputBuffer := s.pty.inputBuffer ++ [data] } },
           metaDisk := meta_update_activity st.metaDisk sessionId now,
           index := st.index,
           transcript := append_input_sync st.transcript now sessionId data }) := by
      unfold send_input
      rw [if_neg (not_lt_of_le hsz), hsome]
      simp [hrun, pty_write]
    refine ⟨by rw [hres], ?_, ?_, ?_⟩
    · rw [hres]; exact dict_get_set_self _ _ _
    · refine ⟨{ ts := now, sessionId := sessionId,
                seq := (dict_get st.transcript.counters sessionId).getD 0 + 1,
                payload := .inp data }, ?_, rfl, rfl⟩
      rw [hres]
      simp [append_input_sync, append_event, get_next_seq]
    · intro m hm
      rw [hres]
      simp only [meta_update_activity, hm]
      exact dict_get_set_self _ _ _

/-- Witness for C3 at concrete inputs: an oversized input against a cap of
2 is rejected with INPUT_TOO_LARGE even though the session id is unknown,
and the state is unchanged. -/
theorem c3_send_input_spec_witness :
    ("abc".length > ({ MAX_INPUT_CHARS_PER_MESSAGE := 2 } : Settings).MAX_INPUT_CHARS_PER_MESSAGE)
    ∧ send_input { MAX_INPUT_CHARS_PER_MESSAGE := 2 } sample_state sid1 "abc" "t1" =
        ((false, some ErrorCodes.INPUT_TOO_LARGE, some "Input exceeds 2 characters."),
         sample_state) :=
  ⟨by decide,
   (c3_send_input_spec { MAX_INPUT_CHARS_PER_MESSAGE := 2 } sample_state sid1
      "abc" "t1").1 (by decide)⟩

/-- Claim C6: `attach_session` on a session id absent from the in-memory
table fails with SESSION_NOT_FOUND and the exact message, for every state —
including states where a meta document for that id exists on disk; on a
session in the table it adds the client to `attachedClients`, appends a
lifecycle `attached` event, and returns the session. -/
theorem c6_attach_session_spec (st : SysState) (sessionId clientId now : String) :
    (dict_get st.sessions sessionId = none →
      attach_session st sessionId clientId now =
        ((none, some ErrorCodes.SESSION_NOT_FOUND,
          some ("Session does not exist: " ++ sessionId)), st))
    ∧ (∀ s : Session, dict_get st.sessions sessionId = some s →
        attach_session st sessionId clientId now =
          ((some { s with attachedClients := set_add s.attachedClients clientId },
            none, none),
           { st with
             sessions := dict_set st.sessions sessionId
               { s with attachedClients := set_add s.attachedClients clientId },
             transcript := append_lifecycle st.transcript now sessionId "attached"
               (.clientDetail clientId) })) := by
  constructor
  · intro hnone
    unfold attach_session
    rw [hnone]
    cases dict_get st.metaDisk sessionId <;> rfl
  · intro s hsome
    unfold attach_session
    rw [hsome]

/-- Witness for C6 at a post-restart state: the meta document for the id
is on disk, yet attach still fails with SESSION_NOT_FOUND and leaves the
state unchanged. -/
theorem c6_attach_session_spec_witness :
    dict_get sample_state_restart.sessions sid0 = none
    ∧ dict_get sample_state_restart.metaDisk sid0 = some sample_meta
    ∧ attach_session sample_state_restart sid0 "client-1" "t1" =
        ((none, some ErrorCodes.SESSION_NOT_FOUND,
          some ("Session does not exist: " ++ sid0)), sample_state_restart) :=
  ⟨rfl, rfl, (c6_attach_session_spec sample_state_restart sid0 "client-1" "t1").1 rfl⟩

/-- Claim C7: when the spawn step fails (capacity available, a non-empty
spawn error message), `create_session` persists a meta document with a
SPAWN_FAILED error, null pid and status "exited"; appends an index entry
with status "exited"; appends a `spawn_failed` lifecycle event (with seq 1,
the counter having just been reset); returns SPAWN_FAILED with the exact
message; and inserts no session into the table.  The final conjunct states
that `meta_store.create` derives status "exited" exactly when an error is
present. -/
theorem c7_spawn_failure_spec (cfg : Settings) (st : SysState)
    (sessionId : String) (copilotPath : Option String) (emsg now : String)
    (hcap : running_session_count st.sessions < cfg.MAX_SESSIONS)
    (hne : emsg ≠ "") :
    (create_session cfg st sessionId copilotPath (.fail (some emsg)) now).1 =
      (none, some ErrorCodes.SPAWN_FAILED,
       some ("Failed to start copilot.exe: " ++ emsg))
    ∧ (create_session cfg st sessionId copilotPath (.fail (some emsg)) now).2.sessions =
        st.sessions
    ∧ dict_get (create_session cfg st sessionId copilotPath (.fail (some emsg)) now).2.metaDisk
        sessionId =
        some { sessionId := sessionId, status := "exited", createdAt := now,
               lastActivityAt := now, workspacePath := workspace_path_of sessionId,
               pid := none, cols := cfg.INITIAL_COLS, rows := cfg.INITIAL_ROWS,
               copilotPath := (match copilotPath with
                 | some p => p
                 | none => cfg.COPILOT_PATH),
               error := some { code := "SPAWN_FAILED", message := emsg } }
    ∧ (create_session cfg st sessionId copilotPath (.fail (some emsg)) now).2.index.sessions =
        st.index.sessions ++
          [{ sessionId := sessionId, status := "exited", createdAt := now,
             lastActivityAt := now, name := none }]
    ∧ (∃ ev : TranscriptEvent,
        (create_session cfg st sessionId copilotPath (.fail (some emsg)) now).2.transcript.events =
          st.transcript.events ++ [ev] ∧
        ev.sessionId = sessionId ∧ ev.seq = 1 ∧
        ev.payload = .lifecycle "spawn_failed" (.errorDetail (some emsg)))
    ∧ (∀ (md : MetaDisk) (n2 i2 wp cp : String) (pid : Option Nat) (c r : Int)
        (err : Option MetaError),
        ((meta_create md n2 i2 wp cp pid c r err).1.status = "exited" ↔ err.isSome)) := by
  have hncap : ¬ running_session_count st.sessions ≥ cfg.MAX_SESSIONS := by omega
  have hmsg : py_or_default (some emsg) "Unknown error" = emsg := by
    simp [py_or_default, hne]
  refine ⟨?_, ?_, ?_, ?_, ?_, ?_⟩
  · unfold create_session
    rw [if_neg hncap]
    simp [py_str_opt]
  · unfold create_session
    rw [if_neg hncap]
  · unfold create_session
    rw [if_neg hncap]
    simp only [meta_create, hmsg, Option.isSome_some, if_true]
    exact dict_get_set_self _ _ _
  · unfold create_session
    rw [if_neg hncap]
    simp [meta_create, index_add_session, index_save]
  · refine ⟨{ ts := now, sessionId := sessionId, seq := 1,
              payload := .lifecycle "spawn_failed" (.errorDetail (some emsg)) },
            ?_, rfl, rfl, rfl⟩
    unfold create_session
    rw [if_neg hncap]
    simp [append_lifecycle, append_event, get_next_seq, init_session, reset_seq,
      dict_get_set_self]
  · intro md n2 i2 wp cp pid c r err
    cases err <;> simp [meta_create]

/-- Witness for C7 at a concrete state with free capacity and spawn error
"boom": the operation returns SPAWN_FAILED with the exact message. -/
theorem c7_spawn_failure_spec_witness :
    running_session_count sample_state.sessions < default_settings.MAX_SESSIONS
    ∧ ("boom" : String) ≠ ""
    ∧ (create_session default_settings sample_state sid1 none
        (.fail (some "boom")) "t1").1 =
      (none, some ErrorCodes.SPAWN_FAILED,
       some ("Failed to start copilot.exe: " ++ "boom")) :=
  ⟨by decide, by decide,
   (c7_spawn_failure_spec default_settings sample_state sid1 none "boom" "t1"
      (by decide) (by decide)).1⟩

/-- Claim C8: a `term.in` message naming a session the connection is not
bound to (including a connection bound to nothing, or no connection at
all) is answered with NOT_ATTACHED and leaves the state untouched —
`send_input` is never reached — regardless of whether the session exists,
is running, or the data is oversized. -/
theorem c8_term_in_not_attached (cfg : Settings) (st : SysState)
    (conn : Option ConnState) (sessionId data now : String)
    (h : conn.elim True (fun c => c.attachedSession ≠ some sessionId)) :
    handle_term_in cfg st conn sessionId data now =
      (some (.errorResp ErrorCodes.NOT_ATTACHED
        ("Not attached to session: " ++ sessionId)), st) := by
  cases conn with
  | none => rfl
  | some c =>
    have hne : c.attachedSession ≠ some sessionId := h
    unfold handle_term_in
    simp [hne]

/-- Witness for C8: a connection bound to a different session sends input
for an existing running session with in-bounds data; the reply is still
NOT_ATTACHED and the state unchanged. -/
theorem c8_term_in_not_attached_witness :
    ({ attachedSession := some sid1 } : ConnState).attachedSession ≠ some sid0
    ∧ handle_term_in default_settings sample_state
        (some { attachedSession := some sid1 }) sid0 "hi" "t1" =
      (some (.errorResp ErrorCodes.NOT_ATTACHED
        ("Not attached to session: " ++ sid0)), sample_state) :=
  ⟨by decide,
   c8_term_in_not_attached default_settings sample_state
     (some { attachedSession := some sid1 }) sid0 "hi" "t1"
     (by decide : ({ attachedSession := some sid1 } : ConnState).attachedSession ≠ some sid0)⟩

/-- Claim C9: `update_session_name` on an id with no index entry returns
false and leaves the index document entirely unchanged (no save, so
`updatedAt` keeps its old value), and the rename handler then replies
SESSION_NOT_FOUND; on an id with an entry, exactly that entry's name is
set, all other entries are unchanged, the document is saved with a
refreshed `updatedAt`, and the handler replies `session.renamed`. -/
theorem c9_update_session_name_spec (st : SysState) (sessionId name now : String) :
    ((∀ e ∈ st.index.sessions, e.sessionId ≠ sessionId) →
      update_session_name st.index sessionId name now = (false, st.index) ∧
      handle_session_rename st sessionId name now =
        (.errorResp ErrorCodes.SESSION_NOT_FOUND
          ("Session not found: " ++ sessionId), st))
    ∧ (∀ (pre : List IndexEntry) (e : IndexEntry) (post : List IndexEntry),
        st.index.sessions = pre ++ e :: post →
        (∀ e2 ∈ pre, e2.sessionId ≠ sessionId) →
        e.sessionId = sessionId →
        update_session_name st.index sessionId name now =
          (true, { st.index with
                   updatedAt := now,
                   sessions := pre ++ { e with name := some name } :: post }) ∧
        handle_session_rename st sessionId name now =
          (.sessionRenamed sessionId name,
           { st with index := { st.index with
                                updatedAt := now,
                                sessions := pre ++ { e with name := some name } :: post } })) := by
  constructor
  · intro habsent
    have hnone : set_name_first st.index.sessions sessionId name = none :=
      (set_name_first_none_iff st.index.sessions sessionId name).mpr habsent
    have hupd : update_session_name st.index sessionId name now = (false, st.index) := by
      unfold update_session_name
      rw [hnone]
    refine ⟨hupd, ?_⟩
    unfold handle_session_rename
    rw [hupd]
    rfl
  · intro pre e post hidx hpre he
    have hsome : set_name_first st.index.sessions sessionId name =
        some (pre ++ { e with name := some name } :: post) := by
      rw [hidx]
      exact set_name_first_decomp pre e post sessionId name hpre he
    have hupd : update_session_name st.index sessionId name now =
        (true, { st.index with
                 updatedAt := now,
                 sessions := pre ++ { e with name := some name } :: post }) := by
      unfold update_session_name
      rw [hsome]
      rfl
    refine ⟨hupd, ?_⟩
    unfold handle_session_rename
    rw [hupd]
    rfl

/-- Witness for C9 on a concrete one-entry index: renaming an id absent
from the index returns false, leaves the document untouched, and the
handler replies SESSION_NOT_FOUND. -/
theorem c9_update_session_name_spec_witness :
    (∀ e ∈ sample_state.index.sessions, e.sessionId ≠ sid1)
    ∧ (update_session_name sample_state.index sid1 "new-name" "t1" =
        (false, sample_state.index) ∧
       handle_session_rename sample_state sid1 "new-name" "t1" =
        (.errorResp ErrorCodes.SESSION_NOT_FOUND
          ("Session not found: " ++ sid1), sample_state)) :=
  ⟨by decide,
   (c9_update_session_name_spec sample_state sid1 "new-name" "t1").1 (by decide)⟩

/-- Claim C10: a successful `terminate_session` keeps the session in the
in-memory table: `get_session` still returns it with its PTY stopped, the
running count drops by exactly the session's former contribution (freeing
capacity), a subsequent in-bounds `send_input` answers SESSION_NOT_RUNNING
(not SESSION_NOT_FOUND) and changes nothing, and `shutdown` is what clears
the table. -/
theorem c10_terminate_keeps_session (cfg : Settings) (st : SysState)
    (sessionId data now now2 now3 : String) (s : Session)
    (hs : dict_get st.sessions sessionId = some s)
    (hsz : data.length ≤ cfg.MAX_INPUT_CHARS_PER_MESSAGE) :
    (terminate_session st sessionId now).1.2.1 = none
    ∧ get_session (terminate_session st sessionId now).2 sessionId =
        some { s with pty := pty_stop s.pty }
    ∧ ({ s with pty := pty_stop s.pty } : Session).pty.running = false
    ∧ running_session_count st.sessions =
        running_session_count (terminate_session st sessionId now).2.sessions +
          (if s.pty.running then 1 else 0)
    ∧ send_input cfg (terminate_session st sessionId now).2 sessionId data now2 =
        ((false, some "SESSION_NOT_RUNNING", some "Session is not running"),
         (terminate_session st sessionId now).2)
    ∧ (shutdown (terminate_session st sessionId now).2 now3).sessions = [] := by
  have hterm : (terminate_session st sessionId now).2.sessions =
      dict_set st.sessions sessionId { s with pty := pty_stop s.pty } := by
    unfold terminate_session
    rw [hs]
  have hget : dict_get (terminate_session st sessionId now).2.sessions sessionId =
      some { s with pty := pty_stop s.pty } := by
    rw [hterm]
    exact dict_get_set_self _ _ _
  refine ⟨?_, hget, rfl, ?_, ?_, shutdown_clears_table _ _⟩
  · unfold terminate_session
    rw [hs]
  · rw [hterm]
    exact running_count_set_stopped st.sessions sessionId
      { s with pty := pty_stop s.pty } s hs rfl
  · unfold send_input
    rw [if_neg (not_lt_of_le hsz), hget]
    simp [pty_stop, pty_terminate]

/-- Witness for C10 at a concrete running session: after termination the
session is still retrievable from the table, with its PTY stopped. -/
theorem c10_terminate_keeps_session_witness :
    dict_get sample_state.sessions sid0 = some sample_session
    ∧ "hi".length ≤ default_settings.MAX_INPUT_CHARS_PER_MESSAGE
    ∧ get_session (terminate_session sample_state sid0 "t1").2 sid0 =
        some { sample_session with pty := pty_stop sample_session.pty } :=
  ⟨rfl, by decide,
   (c10_terminate_keeps_session default_settings sample_state sid0 "hi" "t1" "t2"
      "t3" sample_session rfl (by decide)).2.1⟩

end CopilotCarousel
